import Mathlib

/-!
Shallow embedding of the skiply-frontend booking wizard
(`src/components/LiveQueueBookingSection.tsx`) and authentication context
(`src/contexts/AuthContext.tsx`), with theorems settling the specification
claims about them.

JavaScript numbers that only ever hold small integers are modelled as `Nat`;
the occupancy percentage and the average wait time, which use JavaScript
division, are modelled over `ℚ`.  Strings are Lean `String`s.  `undefined` /
`null` is `Option.none`, and JavaScript truthiness of strings (`""` is falsy)
is modelled explicitly where the code relies on it.
-/

namespace Skiply

/-- `Department` (from `src/types`, as consumed by the component): queue sizes
and wait estimate are the fields the component reads. -/
structure Department where
  id : String
  name : String
  description : Option String
  currentQueueSize : Nat
  maxQueueSize : Nat
  estimatedWaitTime : Nat
  price : Option Nat
deriving Repr, DecidableEq

/-- `Business` as consumed by the component: the code reads `business.id`,
falls back to `business._id`, and reads `name`, `rating`, `departments`. -/
structure Business where
  id : Option String
  _id : Option String
  name : String
  rating : Nat
  departments : List Department
deriving Repr, DecidableEq

/-- The `User` type of `AuthContext.tsx`. -/
structure User where
  id : String
  name : String
  email : String
  phone : Option String
  location : Option String
  profileImage : Option String
  role : String
  createdAt : Option String
  updatedAt : Option String
deriving Repr, DecidableEq

/-- The four wizard steps (`type BookingStep`). -/
inductive BookingStep where
  | departments
  | details
  | confirm
  | success
deriving Repr, DecidableEq

/-- The QR payload object built in `handleConfirmBooking`
(`JSON.stringify({bookingId, tokenNumber, businessName, departmentName,
customerName, date, time})`); modelled structurally rather than as the
serialized JSON string.  Note the source sets both `bookingId` and
`tokenNumber` to `booking._id`. -/
structure QRPayload where
  bookingId : String
  tokenNumber : String
  businessName : String
  departmentName : String
  customerName : String
  date : String
  time : String
deriving Repr, DecidableEq

/-- `interface BookingData` of the wizard; optional fields are absent until a
booking succeeds. -/
structure BookingData where
  departmentId : String
  customerName : String
  customerPhone : String
  customerEmail : String
  notes : String
  tokenNumber : Option Nat := none
  estimatedWaitTime : Option Nat := none
  bookingId : Option String := none
  qrCode : Option QRPayload := none
  bookedAt : Option String := none
  businessName : Option String := none
  departmentName : Option String := none
deriving Repr, DecidableEq

/-- The wizard's component state: `currentStep`, `selectedDepartment`,
`isLoading`, `bookingData`. -/
structure WizardState where
  currentStep : BookingStep
  selectedDepartment : Option Department
  isLoading : Bool
  bookingData : BookingData
deriving Repr, DecidableEq

/-- JavaScript `a || b` for an optional string `a` (`undefined` and `""` are
falsy). -/
def jsOr (a : Option String) (b : String) : String :=
  match a with
  | some s => if s = "" then b else s
  | none => b

/-- JavaScript truthiness filter on an optional string: the result is `some`
exactly when the value is a non-empty string. -/
def truthyString : Option String → Option String
  | some s => if s = "" then none else some s
  | none => none

/-- The initial / reset `bookingData` literal
(`{departmentId: "", customerName: user?.name || "", customerPhone: "",
customerEmail: user?.email || "", notes: ""}`). -/
def initialBookingData (user : Option User) : BookingData :=
  { departmentId := ""
    customerName := jsOr (user.map User.name) ""
    customerPhone := ""
    customerEmail := jsOr (user.map User.email) ""
    notes := "" }

/-- The occupancy percentage `(dept.currentQueueSize / dept.maxQueueSize) * 100`
computed in `getDepartmentStatus`. -/
def occupancyPercentage (dept : Department) : ℚ :=
  ((dept.currentQueueSize : ℚ) / (dept.maxQueueSize : ℚ)) * 100

/-- The record returned by `getDepartmentStatus` (the icon component reference
is modelled by its name). -/
structure DepartmentStatusInfo where
  color : String
  bg : String
  status : String
  icon : String
deriving Repr, DecidableEq

/-- `getDepartmentStatus` from `LiveQueueBookingSection.tsx`; the local
`percentage` binding is `occupancyPercentage`. -/
def getDepartmentStatus (dept : Department) : DepartmentStatusInfo :=
  if occupancyPercentage dept ≥ 90 then
    { color := "text-red-600", bg := "bg-red-100 dark:bg-red-900/20"
      status := "Full", icon := "XCircle" }
  else if occupancyPercentage dept ≥ 70 then
    { color := "text-orange-600", bg := "bg-orange-100 dark:bg-orange-900/20"
      status := "Busy", icon := "AlertCircle" }
  else if occupancyPercentage dept ≥ 30 then
    { color := "text-yellow-600", bg := "bg-yellow-100 dark:bg-yellow-900/20"
      status := "Moderate", icon := "Clock" }
  else
    { color := "text-green-600", bg := "bg-green-100 dark:bg-green-900/20"
      status := "Available", icon := "CheckCircle" }

/-- `handleDepartmentSelect`: sets the selected department and copies its id
into `bookingData.departmentId`. -/
def handleDepartmentSelect (st : WizardState) (dept : Department) : WizardState :=
  { st with
    selectedDepartment := some dept
    bookingData := { st.bookingData with departmentId := dept.id } }

/-- The department card's `onClick` handler:
`dept.currentQueueSize < dept.maxQueueSize && handleDepartmentSelect(dept)`. -/
def departmentCardClick (st : WizardState) (dept : Department) : WizardState :=
  if dept.currentQueueSize < dept.maxQueueSize then handleDepartmentSelect st dept else st

/-- The variant portion of the department card's `className` (the third `cn`
argument): selected ring, else full (unselectable), else selectable hover. -/
def departmentCardVariantClass (selectedDepartment : Option Department)
    (dept : Department) : String :=
  if selectedDepartment.map Department.id = some dept.id then
    "border-l-primary shadow-lg ring-2 ring-primary"
  else if dept.currentQueueSize ≥ dept.maxQueueSize then
    "border-l-red-500 opacity-50 cursor-not-allowed"
  else
    "border-l-blue-500 hover:border-l-primary"

/-- `resetBooking`: back to the departments step, no selection, fresh
`bookingData` re-seeded from the session user. -/
def resetBooking (st : WizardState) (user : Option User) : WizardState :=
  { st with
    currentStep := BookingStep.departments
    selectedDepartment := none
    bookingData := initialBookingData user }

end Skiply

namespace Skiply

/-- Example departments used to instantiate claims at concrete inputs. -/
def deptBusy : Department :=
  { id := "d1", name := "General", description := none
    currentQueueSize := 8, maxQueueSize := 10, estimatedWaitTime := 15, price := none }

def deptModerate : Department :=
  { deptBusy with id := "d2", currentQueueSize := 5 }

def deptFull : Department :=
  { deptBusy with id := "d3", currentQueueSize := 10 }

/-- A freshly mounted wizard state with no session user. -/
def stEmpty : WizardState :=
  { currentStep := BookingStep.departments, selectedDepartment := none
    isLoading := false, bookingData := initialBookingData none }

/-- `e.target.value.replace(/\D/g, '')` in the phone input's `onChange`:
every non-digit character is removed. -/
def stripNonDigits (s : String) : String :=
  String.mk (s.data.filter Char.isDigit)

/-- The phone input's `onChange`: strip non-digits, and store the result only
when it has at most 10 characters (otherwise the stored value is kept). -/
def phoneInputChange (prev input : String) : String :=
  let value := stripNonDigits input
  if value.length ≤ 10 then value else prev

/-- `/^\d{10}$/.test(s)`: exactly ten digit characters. -/
def phoneRegexTest (s : String) : Bool :=
  s.length == 10 && s.data.all Char.isDigit

/-- The outcome of `handleDetailsSubmit`: the step the wizard is on afterwards
and the validation toast fired, if any. -/
structure DetailsSubmitResult where
  nextStep : BookingStep
  toastError : Option String
deriving Repr, DecidableEq

/-- `handleDetailsSubmit`: blocks (with a toast, staying on `details`) when a
required field is empty (JavaScript falsiness of `""`), or when the phone
fails `/^\d{10}$/`; otherwise advances to `confirm`. -/
def handleDetailsSubmit (bookingData : BookingData) : DetailsSubmitResult :=
  if bookingData.customerName = "" ∨ bookingData.customerPhone = "" then
    { nextStep := BookingStep.details
      toastError := some "Please fill in all required fields" }
  else if ¬ phoneRegexTest bookingData.customerPhone then
    { nextStep := BookingStep.details
      toastError := some "Phone number must be exactly 10 digits" }
  else
    { nextStep := BookingStep.confirm, toastError := none }

/-- The `localStorage` slots the code uses: the `"token"` and `"user"` keys. -/
structure StorageState where
  token : Option String
  user : Option String
deriving Repr, DecidableEq

/-- The auth context's in-memory state. -/
structure AuthState where
  user : Option User
  isAuthenticated : Bool
  isLoading : Bool
deriving Repr, DecidableEq

/-- The `AuthProvider` initialization effect (`AuthContext.tsx`): with a
persisted token, fetch the profile (`profileFetch` is `some` exactly when the
request resolves with an ok response and parseable body) and either adopt it
or clear everything; with no token, end unauthenticated.  `stringify` models
`JSON.stringify`. -/
def initAuth (storage : StorageState) (profileFetch : Option User)
    (stringify : User → String) : AuthState × StorageState :=
  match storage.token with
  | some _ =>
    match profileFetch with
    | some profile =>
        ({ user := some profile, isAuthenticated := true, isLoading := false },
         { storage with user := some (stringify profile) })
    | none =>
        ({ user := none, isAuthenticated := false, isLoading := false },
         { token := none, user := none })
  | none =>
      ({ user := none, isAuthenticated := false, isLoading := false }, storage)

/-- A concrete `JSON.stringify` stand-in used by witnesses. -/
def stringifyUser (u : User) : String :=
  u.name

/-- A concrete blocked details form: name present, phone only 5 digits. -/
def bdBlocked : BookingData :=
  { initialBookingData none with customerName := "Ann", customerPhone := "12345" }

end Skiply

open Skiply

/-- C2: for every department with a positive `maxQueueSize`, the derived status
label is determined by the occupancy percentage `(current / max) * 100`:
"Full" iff it is ≥ 90, "Busy" iff it is in [70, 90), "Moderate" iff it is in
[30, 70), and "Available" iff it is < 30; in particular `{8, 10}` yields
"Busy", `{5, 10}` yields "Moderate" and `{10, 10}` yields "Full". -/
theorem c2_department_status :
    (∀ dept : Department, 0 < dept.maxQueueSize →
      (((getDepartmentStatus dept).status = "Full" ↔ 90 ≤ occupancyPercentage dept) ∧
       ((getDepartmentStatus dept).status = "Busy" ↔
          70 ≤ occupancyPercentage dept ∧ occupancyPercentage dept < 90) ∧
       ((getDepartmentStatus dept).status = "Moderate" ↔
          30 ≤ occupancyPercentage dept ∧ occupancyPercentage dept < 70) ∧
       ((getDepartmentStatus dept).status = "Available" ↔
          occupancyPercentage dept < 30))) ∧
    (getDepartmentStatus deptBusy).status = "Busy" ∧
    (getDepartmentStatus deptModerate).status = "Moderate" ∧
    (getDepartmentStatus deptFull).status = "Full" := by
  have hgen : ∀ dept : Department, 0 < dept.maxQueueSize →
      (((getDepartmentStatus dept).status = "Full" ↔ 90 ≤ occupancyPercentage dept) ∧
       ((getDepartmentStatus dept).status = "Busy" ↔
          70 ≤ occupancyPercentage dept ∧ occupancyPercentage dept < 90) ∧
       ((getDepartmentStatus dept).status = "Moderate" ↔
          30 ≤ occupancyPercentage dept ∧ occupancyPercentage dept < 70) ∧
       ((getDepartmentStatus dept).status = "Available" ↔
          occupancyPercentage dept < 30)) := by
    intro dept _h
    unfold getDepartmentStatus
    split_ifs with h1 h2 h3
    · exact ⟨iff_of_true rfl h1,
        iff_of_false (by decide) (fun h => absurd h1 (not_le.mpr h.2)),
        iff_of_false (by decide) (fun h => by linarith [h.2]),
        iff_of_false (by decide) (fun h => by linarith)⟩
    · exact ⟨iff_of_false (by decide) (fun h => h1 h),
        iff_of_true rfl ⟨h2, not_le.mp h1⟩,
        iff_of_false (by decide) (fun h => by linarith [h.2]),
        iff_of_false (by decide) (fun h => by linarith)⟩
    · exact ⟨iff_of_false (by decide) (fun h => h1 h),
        iff_of_false (by decide) (fun h => h2 h.1),
        iff_of_true rfl ⟨h3, not_le.mp h2⟩,
        iff_of_false (by decide) (fun h => by linarith)⟩
    · exact ⟨iff_of_false (by decide) (fun h => h1 h),
        iff_of_false (by decide) (fun h => h2 h.1),
        iff_of_false (by decide) (fun h => h3 h.1),
        iff_of_true rfl (not_le.mp h3)⟩
  have h80 : occupancyPercentage deptBusy = 80 := by
    norm_num [occupancyPercentage, deptBusy]
  have h50 : occupancyPercentage deptModerate = 50 := by
    norm_num [occupancyPercentage, deptModerate, deptBusy]
  have h100 : occupancyPercentage deptFull = 100 := by
    norm_num [occupancyPercentage, deptFull, deptBusy]
  refine ⟨hgen, ?_, ?_, ?_⟩
  · exact (hgen deptBusy (by norm_num [deptBusy])).2.1.mpr (by rw [h80]; norm_num)
  · exact (hgen deptModerate (by norm_num [deptModerate, deptBusy])).2.2.1.mpr
      (by rw [h50]; norm_num)
  · exact (hgen deptFull (by norm_num [deptFull, deptBusy])).1.mpr (by rw [h100]; norm_num)

/-- Witness for C2 at the concrete department `{currentQueueSize: 8,
maxQueueSize: 10}`. -/
theorem c2_department_status_witness :
    0 < deptBusy.maxQueueSize ∧
    (((getDepartmentStatus deptBusy).status = "Full" ↔ 90 ≤ occupancyPercentage deptBusy) ∧
     ((getDepartmentStatus deptBusy).status = "Busy" ↔
        70 ≤ occupancyPercentage deptBusy ∧ occupancyPercentage deptBusy < 90) ∧
     ((getDepartmentStatus deptBusy).status = "Moderate" ↔
        30 ≤ occupancyPercentage deptBusy ∧ occupancyPercentage deptBusy < 70) ∧
     ((getDepartmentStatus deptBusy).status = "Available" ↔
        occupancyPercentage deptBusy < 30)) :=
  ⟨by decide, c2_department_status.1 deptBusy (by decide)⟩

/-- C6: resetting the wizard returns to the departments step, clears the
selected department, empties `departmentId`, `customerPhone` and `notes`,
drops every booking-result field (token number, wait estimate, booking id, QR
payload, timestamp, business/department names), and re-seeds `customerName` /
`customerEmail` from the session user's name and email when a user is present
(empty otherwise). -/
theorem c6_reset_booking (st : WizardState) (user : Option User) :
    (resetBooking st user).currentStep = BookingStep.departments ∧
    (resetBooking st user).selectedDepartment = none ∧
    (resetBooking st user).bookingData.departmentId = "" ∧
    (resetBooking st user).bookingData.customerPhone = "" ∧
    (resetBooking st user).bookingData.notes = "" ∧
    (resetBooking st user).bookingData.tokenNumber = none ∧
    (resetBooking st user).bookingData.estimatedWaitTime = none ∧
    (resetBooking st user).bookingData.bookingId = none ∧
    (resetBooking st user).bookingData.qrCode = none ∧
    (resetBooking st user).bookingData.bookedAt = none ∧
    (resetBooking st user).bookingData.businessName = none ∧
    (resetBooking st user).bookingData.departmentName = none ∧
    (resetBooking st user).bookingData.customerName = (user.map User.name).getD "" ∧
    (resetBooking st user).bookingData.customerEmail = (user.map User.email).getD "" := by
  refine ⟨rfl, rfl, rfl, rfl, rfl, rfl, rfl, rfl, rfl, rfl, rfl, rfl, ?_, ?_⟩ <;>
    cases user with
    | none => rfl
    | some u =>
        simp only [resetBooking, initialBookingData, jsOr, Option.map_some',
          Option.getD_some]
        split <;> simp_all

/-- C7: a department whose `currentQueueSize` has reached `maxQueueSize`
cannot be selected: the card's click handler leaves the state (in particular
the selection) unchanged, and — unless the card is already the selection —
the card is rendered with the unselectable (`cursor-not-allowed`) styling. -/
theorem c7_full_department_unselectable (st : WizardState) (dept : Department)
    (hfull : dept.maxQueueSize ≤ dept.currentQueueSize) :
    departmentCardClick st dept = st ∧
    (departmentCardClick st dept).selectedDepartment = st.selectedDepartment ∧
    (st.selectedDepartment.map Department.id ≠ some dept.id →
      departmentCardVariantClass st.selectedDepartment dept =
        "border-l-red-500 opacity-50 cursor-not-allowed") := by
  have hnotlt : ¬ dept.currentQueueSize < dept.maxQueueSize := Nat.not_lt.mpr hfull
  refine ⟨?_, ?_, ?_⟩
  · simp [departmentCardClick, hnotlt]
  · simp [departmentCardClick, hnotlt]
  · intro hne
    simp [departmentCardVariantClass, hne, Nat.le_of_not_lt hnotlt, hfull]

/-- Witness for C7 at a full department (`{currentQueueSize: 10,
maxQueueSize: 10}`) with a freshly mounted wizard state. -/
theorem c7_full_department_unselectable_witness :
    deptFull.maxQueueSize ≤ deptFull.currentQueueSize ∧
    (departmentCardClick stEmpty deptFull = stEmpty ∧
     (departmentCardClick stEmpty deptFull).selectedDepartment =
        stEmpty.selectedDepartment ∧
     (stEmpty.selectedDepartment.map Department.id ≠ some deptFull.id →
       departmentCardVariantClass stEmpty.selectedDepartment deptFull =
         "border-l-red-500 opacity-50 cursor-not-allowed")) :=
  ⟨by decide, c7_full_department_unselectable stEmpty deptFull (by decide)⟩

/-- C3: `handleDetailsSubmit` advances from details to confirm exactly when
the customer name is non-empty, the phone is non-empty, and the phone is
exactly 10 digit characters; when blocked it stays on the details step and
fires a validation toast.  The phone input's `onChange` strips non-digit
characters: its stored result is all digits (either the stripped input, or
the previous stored value when the stripped input exceeds 10 characters). -/
theorem c3_details_advancement :
    (∀ bd : BookingData,
      ((handleDetailsSubmit bd).nextStep = BookingStep.confirm ↔
        bd.customerName ≠ "" ∧ bd.customerPhone ≠ "" ∧
        bd.customerPhone.length = 10 ∧
        bd.customerPhone.data.all Char.isDigit = true) ∧
      ((handleDetailsSubmit bd).nextStep ≠ BookingStep.confirm →
        (handleDetailsSubmit bd).nextStep = BookingStep.details ∧
        ((handleDetailsSubmit bd).toastError).isSome = true)) ∧
    (∀ prev input : String,
      (stripNonDigits input).data.all Char.isDigit = true ∧
      (phoneInputChange prev input = stripNonDigits input ∨
        phoneInputChange prev input = prev)) := by
  constructor
  · intro bd
    unfold handleDetailsSubmit
    split_ifs with h1 h2
    · refine ⟨iff_of_false (by decide) (fun hc => ?_), fun _ => ⟨rfl, rfl⟩⟩
      rcases h1 with h | h
      · exact hc.1 h
      · exact hc.2.1 h
    · push_neg at h1
      simp only [phoneRegexTest, Bool.and_eq_true, beq_iff_eq] at h2
      exact ⟨iff_of_true rfl ⟨h1.1, h1.2, h2.1, h2.2⟩, fun hc => absurd rfl hc⟩
    · refine ⟨iff_of_false (by decide) (fun hc => ?_), fun _ => ⟨rfl, rfl⟩⟩
      exact h2 (by simp [phoneRegexTest, hc.2.2.1, hc.2.2.2])
  · intro prev input
    constructor
    · simp only [stripNonDigits, List.all_eq_true]
      exact fun c hc => (List.mem_filter.mp hc).2
    · by_cases h : (stripNonDigits input).length ≤ 10
      · exact Or.inl (by simp [phoneInputChange, h])
      · exact Or.inr (by simp [phoneInputChange, h])

/-- Witness for C3: a 5-digit phone blocks advancement, stays on details and
fires a toast. -/
theorem c3_details_advancement_witness :
    (handleDetailsSubmit bdBlocked).nextStep ≠ BookingStep.confirm ∧
    ((handleDetailsSubmit bdBlocked).nextStep = BookingStep.details ∧
      ((handleDetailsSubmit bdBlocked).toastError).isSome = true) :=
  ⟨by decide, (c3_details_advancement.1 bdBlocked).2 (by decide)⟩

/-- C5: on auth initialization, a persisted token whose profile fetch does not
resolve yields a state with no user and `isAuthenticated = false` and removes
both the `"token"` and `"user"` storage keys; with no persisted token the
state is likewise unauthenticated; and the loading flag ends `false` in every
case. -/
theorem c5_init_session_resumption :
    ∀ (storage : StorageState) (profileFetch : Option User)
      (stringify : User → String),
      ((storage.token ≠ none ∧ profileFetch = none) ∨ storage.token = none →
        (initAuth storage profileFetch stringify).1.user = none ∧
        (initAuth storage profileFetch stringify).1.isAuthenticated = false) ∧
      (storage.token ≠ none → profileFetch = none →
        (initAuth storage profileFetch stringify).2.token = none ∧
        (initAuth storage profileFetch stringify).2.user = none) ∧
      (initAuth storage profileFetch stringify).1.isLoading = false := by
  intro storage profileFetch stringify
  cases htok : storage.token with
  | none =>
      refine ⟨fun _ => ?_, fun hne _ => absurd rfl hne, ?_⟩ <;>
        simp [initAuth, htok]
  | some t =>
      cases hpf : profileFetch with
      | none =>
          refine ⟨fun _ => ?_, fun _ _ => ?_, ?_⟩ <;> simp [initAuth, htok]
      | some profile =>
          refine ⟨fun h => ?_, fun _ hpf0 => ?_, ?_⟩
          · rcases h with ⟨_, hpf0⟩ | hnone
            · simp at hpf0
            · simp at hnone
          · simp at hpf0
          · simp [initAuth, htok]

/-- Witness for C5: a stale token with a failing profile fetch clears
everything. -/
theorem c5_init_session_resumption_witness :
    (((⟨some "tok", some "olduser"⟩ : StorageState).token ≠ none ∧
        (none : Option User) = none) ∨
      (⟨some "tok", some "olduser"⟩ : StorageState).token = none →
      (initAuth ⟨some "tok", some "olduser"⟩ none stringifyUser).1.user = none ∧
      (initAuth ⟨some "tok", some "olduser"⟩ none
          stringifyUser).1.isAuthenticated = false) ∧
    ((⟨some "tok", some "olduser"⟩ : StorageState).token ≠ none →
      (none : Option User) = none →
      (initAuth ⟨some "tok", some "olduser"⟩ none stringifyUser).2.token = none ∧
      (initAuth ⟨some "tok", some "olduser"⟩ none stringifyUser).2.user = none) ∧
    (initAuth ⟨some "tok", some "olduser"⟩ none stringifyUser).1.isLoading = false :=
  c5_init_session_resumption ⟨some "tok", some "olduser"⟩ none stringifyUser

namespace Skiply

/-- The parsed JSON body of a successful `POST /api/queues/book` response.
The client reads `_id`, `businessName`, `departmentName`, `customerName` and
`bookedAt`; a backend-assigned `tokenNumber` field, if the backend includes
one in the JSON, is retained here but never read by the client code. -/
structure BookingResponse where
  _id : String
  businessName : String
  departmentName : String
  customerName : String
  bookedAt : String
  tokenNumber : Option Nat := none
deriving Repr, DecidableEq

/-- Outcome of the single `fetch` in `handleConfirmBooking`: an ok response
with a parsed body, a non-ok response (`!res.ok`) with its status and body
text, or a rejected fetch. -/
inductive FetchOutcome where
  | success (booking : BookingResponse)
  | httpError (status : Nat) (body : String)
  | networkError (message : String)
deriving Repr, DecidableEq

/-- The request body `bookingPayload` sent to `POST /api/queues/book`. -/
structure BookingPayload where
  businessId : String
  businessName : String
  departmentName : String
  customerName : String
  customerPhone : String
  notes : String
  bookedAt : String
deriving Repr, DecidableEq

/-- A toast notification fired through `sonner`. -/
inductive Toast where
  | success (message : String)
  | error (message : String)
deriving Repr, DecidableEq

/-- Ambient values `handleConfirmBooking` reads besides component state: the
`business` prop, the session user, and `new Date().toISOString()`. -/
structure ConfirmEnv where
  business : Business
  user : Option User
  now : String

/-- Result of running `handleConfirmBooking`: the new component state, the
booking requests issued (in order), and the toasts fired. -/
structure ConfirmResult where
  state : WizardState
  requests : List BookingPayload
  toasts : List Toast

/-- JavaScript `a || b` where both operands are optional strings. -/
def jsOrOpt (a b : Option String) : Option String :=
  match a with
  | some s => if s = "" then b else some s
  | none => b

/-- `const businessId = business.id || (business as any)._id`, as consumed by
the `if (!businessId)` guard: `some` exactly when the coalesced value is a
non-empty string. -/
def businessIdOf (b : Business) : Option String :=
  truthyString (jsOrOpt b.id b._id)

/-- `handleConfirmBooking`: an early return when no department is selected or
no user is logged in; a guarded error when no business id can be found; and
otherwise one booking request whose outcome either moves the wizard to the
success step (storing `tokenNumber: 1` and the QR payload) or fires an error
toast.  The `finally` block clears `isLoading` on every path past the guard.
`localeTime` models `new Date(s).toLocaleTimeString()`. -/
def handleConfirmBooking (env : ConfirmEnv) (st : WizardState)
    (outcome : FetchOutcome) (localeTime : String → String) : ConfirmResult :=
  match st.selectedDepartment, env.user with
  | none, _ => { state := st, requests := [], toasts := [] }
  | some _, none => { state := st, requests := [], toasts := [] }
  | some dept, some _ =>
    match businessIdOf env.business with
    | none =>
        { state := { st with isLoading := false }
          requests := []
          toasts := [Toast.error "Business ID not found. Please try again."] }
    | some businessId =>
        let bookingPayload : BookingPayload :=
          { businessId := businessId
            businessName := env.business.name
            departmentName := dept.name
            customerName := st.bookingData.customerName
            customerPhone := st.bookingData.customerPhone
            notes := st.bookingData.notes
            bookedAt := env.now }
        match outcome with
        | FetchOutcome.success booking =>
            let qrData : QRPayload :=
              { bookingId := booking._id
                tokenNumber := booking._id
                businessName := booking.businessName
                departmentName := booking.departmentName
                customerName := booking.customerName
                date := booking.bookedAt
                time := localeTime booking.bookedAt }
            { state :=
                { currentStep := BookingStep.success
                  selectedDepartment := st.selectedDepartment
                  isLoading := false
                  bookingData :=
                    { st.bookingData with
                      tokenNumber := some 1
                      estimatedWaitTime := some dept.estimatedWaitTime
                      bookingId := some booking._id
                      qrCode := some qrData
                      bookedAt := some booking.bookedAt
                      businessName := some booking.businessName
                      departmentName := some booking.departmentName } }
              requests := [bookingPayload]
              toasts := [Toast.success "Your booking has been confirmed!"] }
        | FetchOutcome.httpError status body =>
            { state := { st with isLoading := false }
              requests := [bookingPayload]
              toasts := [Toast.error ("Booking failed: Booking failed: " ++
                toString status ++ " - " ++ body)] }
        | FetchOutcome.networkError message =>
            { state := { st with isLoading := false }
              requests := [bookingPayload]
              toasts := [Toast.error ("Booking failed: " ++ message)] }

/-- The token text the success step renders: `Token #{bookingData.tokenNumber}`
(rendered only when `tokenNumber` is set and truthy). -/
def successTokenText (bd : BookingData) : Option String :=
  bd.tokenNumber.map (fun n => "Token #" ++ toString n)

/-- The display-only token guess shown on the details/confirm steps:
`#{selectedDepartment.currentQueueSize + 1}`. -/
def confirmTokenGuess (dept : Department) : String :=
  "#" ++ toString (dept.currentQueueSize + 1)

end Skiply

namespace Skiply

/-- A session user for concrete instances. -/
def userAnn : User :=
  { id := "u1", name := "Ann", email := "ann@example.com", phone := none
    location := none, profileImage := none, role := "user"
    createdAt := none, updatedAt := none }

/-- A business with one department and a usable id. -/
def bizOne : Business :=
  { id := some "b1", _id := none, name := "Clinic", rating := 4
    departments := [deptModerate] }

/-- A business object carrying neither `id` nor `_id`. -/
def bizNoId : Business :=
  { id := none, _id := none, name := "Clinic", rating := 4
    departments := [deptModerate] }

/-- The wizard state on the confirm step with valid collected details. -/
def stConfirm : WizardState :=
  { currentStep := BookingStep.confirm
    selectedDepartment := some deptModerate
    isLoading := false
    bookingData :=
      { initialBookingData (some userAnn) with
        departmentId := deptModerate.id, customerPhone := "1234567890" } }

def envOne : ConfirmEnv :=
  { business := bizOne, user := some userAnn, now := "2026-01-01T00:00:00.000Z" }

def envNoId : ConfirmEnv :=
  { business := bizNoId, user := some userAnn, now := "2026-01-01T00:00:00.000Z" }

/-- A backend booking response whose JSON carries a token number of 5. -/
def respFive : BookingResponse :=
  { _id := "bk42", businessName := "Clinic", departmentName := "General"
    customerName := "Ann", bookedAt := "2026-01-01T00:00:01.000Z"
    tokenNumber := some 5 }

end Skiply

/-- C1, counterexample: on a successful submission the wizard does transition
to the success step, but the token number it stores and renders is the
constant `1`, not the token number carried by the backend booking response
(here `5`): the stored value differs from the backend's. -/
theorem c1_backend_token_counterexample :
    (handleConfirmBooking envOne stConfirm (FetchOutcome.success respFive)
        id).state.currentStep = BookingStep.success ∧
    respFive.tokenNumber = some 5 ∧
    (handleConfirmBooking envOne stConfirm (FetchOutcome.success respFive)
        id).state.bookingData.tokenNumber = some 1 ∧
    (handleConfirmBooking envOne stConfirm (FetchOutcome.success respFive)
        id).state.bookingData.tokenNumber ≠ respFive.tokenNumber ∧
    successTokenText (handleConfirmBooking envOne stConfirm
        (FetchOutcome.success respFive) id).state.bookingData =
      some "Token #1" := by
  refine ⟨rfl, rfl, rfl, by decide, rfl⟩

/-- C1, amended: on a successful booking submission the wizard transitions to
the success step, and the token number it stores and renders is the constant
`1`, independent of the backend response; the QR payload records the backend
booking id in both its `bookingId` and `tokenNumber` fields; the locally
computed `currentQueueSize + 1` guess remains display-only and is not what
success renders. -/
theorem c1_success_stores_constant_token :
    ∀ (env : ConfirmEnv) (st : WizardState) (booking : BookingResponse)
      (localeTime : String → String) (dept : Department) (u : User)
      (bid : String),
      st.selectedDepartment = some dept → env.user = some u →
      businessIdOf env.business = some bid →
      (handleConfirmBooking env st (FetchOutcome.success booking)
          localeTime).state.currentStep = BookingStep.success ∧
      (handleConfirmBooking env st (FetchOutcome.success booking)
          localeTime).state.bookingData.tokenNumber = some 1 ∧
      successTokenText (handleConfirmBooking env st (FetchOutcome.success booking)
          localeTime).state.bookingData = some "Token #1" ∧
      (handleConfirmBooking env st (FetchOutcome.success booking)
          localeTime).state.bookingData.bookingId = some booking._id ∧
      (handleConfirmBooking env st (FetchOutcome.success booking)
          localeTime).state.bookingData.qrCode = some
        { bookingId := booking._id, tokenNumber := booking._id
          businessName := booking.businessName
          departmentName := booking.departmentName
          customerName := booking.customerName
          date := booking.bookedAt, time := localeTime booking.bookedAt } := by
  intro env st booking localeTime dept u bid hsel huser hbid
  refine ⟨?_, ?_, ?_, ?_, ?_⟩
  all_goals simp [handleConfirmBooking, hsel, huser, hbid, successTokenText]
  all_goals rfl

/-- Witness for C1 (amended) at the concrete confirm-step state and backend
response with token number 5. -/
theorem c1_success_stores_constant_token_witness :
    (stConfirm.selectedDepartment = some deptModerate ∧
      envOne.user = some userAnn ∧
      businessIdOf envOne.business = some "b1") ∧
    ((handleConfirmBooking envOne stConfirm (FetchOutcome.success respFive)
        id).state.currentStep = BookingStep.success ∧
      (handleConfirmBooking envOne stConfirm (FetchOutcome.success respFive)
        id).state.bookingData.tokenNumber = some 1 ∧
      successTokenText (handleConfirmBooking envOne stConfirm
        (FetchOutcome.success respFive) id).state.bookingData = some "Token #1" ∧
      (handleConfirmBooking envOne stConfirm (FetchOutcome.success respFive)
        id).state.bookingData.bookingId = some respFive._id ∧
      (handleConfirmBooking envOne stConfirm (FetchOutcome.success respFive)
        id).state.bookingData.qrCode = some
        { bookingId := respFive._id, tokenNumber := respFive._id
          businessName := respFive.businessName
          departmentName := respFive.departmentName
          customerName := respFive.customerName
          date := respFive.bookedAt, time := id respFive.bookedAt }) :=
  ⟨⟨rfl, rfl, rfl⟩,
   c1_success_stores_constant_token envOne stConfirm respFive id deptModerate
     userAnn "b1" rfl rfl rfl⟩

/-- C4: a booking submission that fails — missing business id, non-ok HTTP
response, or network error — leaves the wizard on the confirm step with the
loading flag cleared, all collected booking fields and the selected
department unchanged, and issues at most one request (no automatic retry). -/
theorem c4_failed_submission_stays_on_confirm :
    ∀ (env : ConfirmEnv) (st : WizardState) (outcome : FetchOutcome)
      (localeTime : String → String) (dept : Department) (u : User),
      st.selectedDepartment = some dept → env.user = some u →
      st.currentStep = BookingStep.confirm →
      (businessIdOf env.business = none ∨
        (∃ status body, outcome = FetchOutcome.httpError status body) ∨
        (∃ message, outcome = FetchOutcome.networkError message)) →
      (handleConfirmBooking env st outcome localeTime).state.currentStep =
          BookingStep.confirm ∧
      (handleConfirmBooking env st outcome localeTime).state.isLoading = false ∧
      (handleConfirmBooking env st outcome localeTime).state.bookingData =
          st.bookingData ∧
      (handleConfirmBooking env st outcome localeTime).state.selectedDepartment =
          st.selectedDepartment ∧
      (handleConfirmBooking env st outcome localeTime).requests.length ≤ 1 := by
  intro env st outcome localeTime dept u hsel huser hstep hfail
  rcases hfail with hbid | ⟨status, body, rfl⟩ | ⟨message, rfl⟩
  · simp [handleConfirmBooking, hsel, huser, hbid, hstep]
  · cases hbid : businessIdOf env.business <;>
      simp [handleConfirmBooking, hsel, huser, hbid, hstep]
  · cases hbid : businessIdOf env.business <;>
      simp [handleConfirmBooking, hsel, huser, hbid, hstep]

/-- Witness for C4 at a concrete state whose business object lacks an id. -/
theorem c4_failed_submission_stays_on_confirm_witness :
    (stConfirm.selectedDepartment = some deptModerate ∧
      envNoId.user = some userAnn ∧
      stConfirm.currentStep = BookingStep.confirm ∧
      businessIdOf envNoId.business = none) ∧
    ((handleConfirmBooking envNoId stConfirm
        (FetchOutcome.networkError "Failed to fetch") id).state.currentStep =
          BookingStep.confirm ∧
     (handleConfirmBooking envNoId stConfirm
        (FetchOutcome.networkError "Failed to fetch") id).state.isLoading = false ∧
     (handleConfirmBooking envNoId stConfirm
        (FetchOutcome.networkError "Failed to fetch") id).state.bookingData =
          stConfirm.bookingData ∧
     (handleConfirmBooking envNoId stConfirm
        (FetchOutcome.networkError "Failed to fetch") id).state.selectedDepartment =
          stConfirm.selectedDepartment ∧
     (handleConfirmBooking envNoId stConfirm
        (FetchOutcome.networkError "Failed to fetch") id).requests.length ≤ 1) :=
  ⟨⟨rfl, rfl, rfl, rfl⟩,
   c4_failed_submission_stays_on_confirm envNoId stConfirm
     (FetchOutcome.networkError "Failed to fetch") id deptModerate userAnn
     rfl rfl rfl (Or.inl rfl)⟩

namespace Skiply

/-- The `user` object inside a login response body (`data.user`); its `role`
may be absent. -/
structure LoginRespUser where
  id : String
  name : String
  email : String
  role : Option String
deriving Repr, DecidableEq

/-- The parsed login response body (`data`): an optional error `message`, and
the `user` / `token` fields the code validates. -/
structure LoginResponseData where
  message : Option String
  user : Option LoginRespUser
  token : Option String
deriving Repr, DecidableEq

/-- The endpoint `login` posts to, selected by role (the `VITE_API_URL`
prefix is elided). -/
def loginEndpoint (role : String) : String :=
  if role = "business" then "/api/businesses/login" else "/api/auth/login"

/-- `if (!data.user || !data.token || !data.user.role)` does not fire: the
response has a user, a truthy token, and a truthy role on the user. -/
def validLoginResponse (data : LoginResponseData) : Bool :=
  match data.user, truthyString data.token with
  | some u, some _ => (truthyString u.role).isSome
  | _, _ => false

/-- Result of `login`: the promise's resolution (`{user, token}`) or the
thrown message, plus the in-memory auth state and storage afterwards. -/
structure LoginOutcome where
  result : Except String (User × String)
  state : AuthState
  storage : StorageState

/-- `login` from `AuthContext.tsx`: throws the backend message on a non-ok
response; throws on a response missing `user`, a truthy `token`, or a truthy
`user.role`; otherwise persists the token, fetches the full profile
(`profileFetch`; its rejection rethrows with the token already persisted),
persists and adopts the profile, and sets `isAuthenticated`. -/
def login (st : AuthState) (storage : StorageState) (resOk : Bool)
    (data : LoginResponseData) (profileFetch : Except String User)
    (stringify : User → String) : LoginOutcome :=
  if resOk = false then
    { result := Except.error (jsOr data.message "Login failed")
      state := st, storage := storage }
  else
    match data.user, truthyString data.token with
    | some respUser, some token =>
      match truthyString respUser.role with
      | some _ =>
          let storage1 := { storage with token := some token }
          match profileFetch with
          | Except.ok profile =>
              { result := Except.ok (profile, token)
                state := { st with user := some profile, isAuthenticated := true }
                storage := { storage1 with user := some (stringify profile) } }
          | Except.error e =>
              { result := Except.error e, state := st, storage := storage1 }
      | none =>
          { result := Except.error "Invalid login response from server"
            state := st, storage := storage }
    | _, _ =>
        { result := Except.error "Invalid login response from server"
          state := st, storage := storage }

/-- A well-formed login response body. -/
def dataOk : LoginResponseData :=
  { message := none
    user := some { id := "u1", name := "Ann", email := "ann@example.com"
                   role := some "user" }
    token := some "tok" }

end Skiply

/-- C8: `login` posts to the business endpoint exactly for role `"business"`
and to the user endpoint otherwise; it throws — leaving state and storage
untouched — when the HTTP response is not ok or when the response lacks a
user record, a (truthy) token, or a (truthy) role on the user; and on a valid
response (with the follow-up profile fetch resolving) it persists the token
and a user record and sets the in-memory user with `isAuthenticated = true`. -/
theorem c8_login_validation :
    ∀ (st : AuthState) (storage : StorageState) (resOk : Bool)
      (data : LoginResponseData) (profileFetch : Except String User)
      (stringify : User → String),
      (loginEndpoint "business" = "/api/businesses/login" ∧
        ∀ role : String, role ≠ "business" →
          loginEndpoint role = "/api/auth/login") ∧
      (resOk = false ∨ validLoginResponse data = false →
        (∃ e, (login st storage resOk data profileFetch stringify).result =
          Except.error e) ∧
        (login st storage resOk data profileFetch stringify).state = st ∧
        (login st storage resOk data profileFetch stringify).storage = storage) ∧
      (resOk = true → validLoginResponse data = true →
        ∀ profile : User, profileFetch = Except.ok profile →
          ∃ token : String, truthyString data.token = some token ∧
            (login st storage resOk data profileFetch stringify).result =
              Except.ok (profile, token) ∧
            (login st storage resOk data profileFetch stringify).state =
              { st with user := some profile, isAuthenticated := true } ∧
            (login st storage resOk data profileFetch stringify).storage =
              { token := some token, user := some (stringify profile) }) := by
  intro st storage resOk data profileFetch stringify
  refine ⟨⟨rfl, fun role h => by simp [loginEndpoint, h]⟩, ?_, ?_⟩
  · intro h
    cases resOk with
    | false =>
        exact ⟨⟨jsOr data.message "Login failed", by simp [login]⟩,
          by simp [login], by simp [login]⟩
    | true =>
        rcases h with h | hval
        · exact absurd h (by simp)
        · cases hdu : data.user with
          | none =>
              cases hdt : truthyString data.token <;>
                exact ⟨⟨"Invalid login response from server",
                    by simp [login, hdu, hdt]⟩,
                  by simp [login, hdu, hdt], by simp [login, hdu, hdt]⟩
          | some u =>
              cases hdt : truthyString data.token with
              | none =>
                  exact ⟨⟨"Invalid login response from server",
                      by simp [login, hdu, hdt]⟩,
                    by simp [login, hdu, hdt], by simp [login, hdu, hdt]⟩
              | some token =>
                  have hrole : truthyString u.role = none := by
                    simp [validLoginResponse, hdu, hdt,
                      Option.isSome_iff_exists] at hval
                    cases hr : truthyString u.role with
                    | none => rfl
                    | some r => exact absurd hr (by simp [hval])
                  exact ⟨⟨"Invalid login response from server",
                      by simp [login, hdu, hdt, hrole]⟩,
                    by simp [login, hdu, hdt, hrole],
                    by simp [login, hdu, hdt, hrole]⟩
  · intro hok hval profile hpf
    subst hok
    cases hdu : data.user with
    | none => simp [validLoginResponse, hdu] at hval
    | some u =>
        cases hdt : truthyString data.token with
        | none => simp [validLoginResponse, hdu, hdt] at hval
        | some token =>
            have hrole : (truthyString u.role).isSome = true := by
              simpa [validLoginResponse, hdu, hdt] using hval
            cases hr : truthyString u.role with
            | none => simp [hr] at hrole
            | some r =>
                exact ⟨token, rfl, by simp [login, hdu, hdt, hr, hpf],
                  by simp [login, hdu, hdt, hr, hpf],
                  by simp [login, hdu, hdt, hr, hpf]⟩

/-- Witness for C8: a valid login response with token `"tok"` and a resolving
profile fetch, from a logged-out state. -/
theorem c8_login_validation_witness :
    (true = true ∧ validLoginResponse dataOk = true ∧
      (Except.ok userAnn : Except String User) = Except.ok userAnn) ∧
    (∃ token : String, truthyString dataOk.token = some token ∧
      (login ⟨none, false, false⟩ ⟨none, none⟩ true dataOk (Except.ok userAnn)
          stringifyUser).result = Except.ok (userAnn, token) ∧
      (login ⟨none, false, false⟩ ⟨none, none⟩ true dataOk (Except.ok userAnn)
          stringifyUser).state =
        { (⟨none, false, false⟩ : AuthState) with
          user := some userAnn, isAuthenticated := true } ∧
      (login ⟨none, false, false⟩ ⟨none, none⟩ true dataOk (Except.ok userAnn)
          stringifyUser).storage =
        { token := some token, user := some (stringifyUser userAnn) }) :=
  ⟨⟨rfl, by decide, rfl⟩,
   (c8_login_validation ⟨none, false, false⟩ ⟨none, none⟩ true dataOk
       (Except.ok userAnn) stringifyUser).2.2 rfl (by decide) userAnn rfl⟩

namespace Skiply

/-- Errors the embedded `updateProfile` variant
(`LiveQueueBookingSection.tsx`, embedded `AuthProvider`) can throw: the
no-session guard, the explicit JSON-branch failure, and the strict-mode
`ReferenceError` raised on assigning or reading the undeclared variable
`updatedUser`. -/
inductive ProfileUpdateError where
  | notAuthenticated
  | profileUpdateFailed
  | referenceError (name : String)
deriving Repr, DecidableEq

/-- The argument `Partial<User> & {profileImageFile?: File}` of the embedded
variant, restricted to the fields its body reads; the `File` is modelled by
an opaque handle string. -/
structure ProfileUpdateData where
  name : Option String
  phone : Option String
  location : Option String
  profileImageFile : Option String
deriving Repr, DecidableEq

/-- A profile `PUT` request: multipart form data (with only the truthy fields
appended plus the image file), or a JSON body. -/
inductive ProfileRequest where
  | multipart (name phone location : Option String) (profileImage : String)
  | json (data : ProfileUpdateData)
deriving Repr, DecidableEq

/-- Result of the embedded `updateProfile`: the promise outcome, the in-memory
user and storage afterwards, and the requests issued. -/
structure ProfileUpdateOutcome where
  result : Except ProfileUpdateError Unit
  user : Option User
  storage : StorageState
  requests : List ProfileRequest
deriving Repr

/-- The embedded `updateProfile` variant.  The source declares no variable
`updatedUser`: the multipart branch never reads the response and reaches
`setUser(updatedUser)` with `updatedUser` undeclared, and the JSON branch
executes `updatedUser = await res.json()` — an assignment to an undeclared
identifier, which throws a `ReferenceError` in strict (ES module) code — so
no path past a sent request can reach the state update. -/
def updateProfileEmbedded (user : Option User) (storage : StorageState)
    (data : ProfileUpdateData) (resOk : Bool) : ProfileUpdateOutcome :=
  match storage.token with
  | none =>
      { result := Except.error ProfileUpdateError.notAuthenticated
        user := user, storage := storage, requests := [] }
  | some _ =>
    match truthyString data.profileImageFile with
    | some file =>
        { result := Except.error (ProfileUpdateError.referenceError "updatedUser")
          user := user, storage := storage
          requests := [ProfileRequest.multipart (truthyString data.name)
            (truthyString data.phone) (truthyString data.location) file] }
    | none =>
        if resOk = false then
          { result := Except.error ProfileUpdateError.profileUpdateFailed
            user := user, storage := storage
            requests := [ProfileRequest.json data] }
        else
          { result := Except.error (ProfileUpdateError.referenceError "updatedUser")
            user := user, storage := storage
            requests := [ProfileRequest.json data] }

/-- An update carrying a profile image file. -/
def updDataImg : ProfileUpdateData :=
  { name := some "Ann", phone := none, location := none
    profileImageFile := some "file-1" }

end Skiply

/-- C9 (bug exhibit): with no persisted token the embedded `updateProfile`
throws without issuing a request or touching state; but with a token and a
successful response it can never merge the server's response into the user
record: both the multipart and the JSON branch end in the `ReferenceError` on
the undeclared `updatedUser`, leaving the in-memory user and the persisted
user record unchanged. -/
theorem c9_update_profile_undeclared_variable :
    (updateProfileEmbedded (some userAnn) ⟨none, none⟩ updDataImg true).result =
        Except.error ProfileUpdateError.notAuthenticated ∧
    (updateProfileEmbedded (some userAnn) ⟨none, none⟩ updDataImg true).requests =
        [] ∧
    (updateProfileEmbedded (some userAnn) ⟨none, none⟩ updDataImg true).user =
        some userAnn ∧
    (updateProfileEmbedded (some userAnn) ⟨some "tok", some "old"⟩ updDataImg
        true).result =
      Except.error (ProfileUpdateError.referenceError "updatedUser") ∧
    (updateProfileEmbedded (some userAnn) ⟨some "tok", some "old"⟩ updDataImg
        true).user = some userAnn ∧
    (updateProfileEmbedded (some userAnn) ⟨some "tok", some "old"⟩ updDataImg
        true).storage = ⟨some "tok", some "old"⟩ ∧
    (updateProfileEmbedded (some userAnn) ⟨some "tok", some "old"⟩
        { updDataImg with profileImageFile := none } true).result =
      Except.error (ProfileUpdateError.referenceError "updatedUser") ∧
    (updateProfileEmbedded (some userAnn) ⟨some "tok", some "old"⟩
        { updDataImg with profileImageFile := none } true).user = some userAnn :=
  ⟨rfl, rfl, rfl, rfl, rfl, rfl, rfl, rfl⟩

namespace Skiply

/-- `business.departments.reduce((total, dept) => total + dept.estimatedWaitTime, 0)`. -/
def totalEstimatedWait (b : Business) : Nat :=
  b.departments.foldl (fun total dept => total + dept.estimatedWaitTime) 0

/-- `Math.round` for the non-negative values arising here (JavaScript rounds
half away from zero upward): `floor(q + 1/2)`. -/
def jsRound (q : ℚ) : ℤ :=
  ⌊q + 1 / 2⌋

/-- `averageWaitTime = Math.round(totalWait / departments.length)`.  With no
departments JavaScript computes `0 / 0 = NaN` and renders `NaN`; the
undefined value is modelled as `none`. -/
def averageWaitTime (b : Business) : Option ℤ :=
  if b.departments.length = 0 then none
  else some (jsRound ((totalEstimatedWait b : ℚ) / (b.departments.length : ℚ)))

/-- A business with no departments. -/
def bizEmpty : Business :=
  { id := some "b0", _id := none, name := "Empty", rating := 0, departments := [] }

/-- The `reduce` over `estimatedWaitTime` is the sum of the mapped list. -/
theorem foldl_wait_eq_sum (l : List Department) (n : Nat) :
    l.foldl (fun total dept => total + dept.estimatedWaitTime) n =
      n + (l.map Department.estimatedWaitTime).sum := by
  induction l generalizing n with
  | nil => simp
  | cons d l ih =>
      simp only [List.foldl_cons, List.map_cons, List.sum_cons, ih]
      omega

end Skiply

/-- C10: the displayed average wait time equals
`round((sum of departments' estimatedWaitTime) / (number of departments))`
whenever the business has at least one department; with an empty departments
list the JavaScript computation divides zero by zero (NaN) and the value is
undefined — modelled as `none`. -/
theorem c10_average_wait_time :
    ∀ b : Business,
      (b.departments ≠ [] →
        averageWaitTime b = some (jsRound
          (((b.departments.map Department.estimatedWaitTime).sum : ℚ) /
            (b.departments.length : ℚ)))) ∧
      (b.departments = [] → averageWaitTime b = none) := by
  intro b
  constructor
  · intro hne
    have hlen : ¬ b.departments.length = 0 :=
      fun h0 => hne (List.length_eq_zero.mp h0)
    have hsum : totalEstimatedWait b =
        (b.departments.map Department.estimatedWaitTime).sum := by
      simpa using foldl_wait_eq_sum b.departments 0
    simp [averageWaitTime, hlen, hsum]
  · intro hnil
    simp [averageWaitTime, hnil]

/-- Witness for C10 at a one-department business and at a zero-department
business. -/
theorem c10_average_wait_time_witness :
    (bizOne.departments ≠ [] ∧
      averageWaitTime bizOne = some (jsRound
        (((bizOne.departments.map Department.estimatedWaitTime).sum : ℚ) /
          (bizOne.departments.length : ℚ)))) ∧
    (bizEmpty.departments = [] ∧ averageWaitTime bizEmpty = none) :=
  ⟨⟨by simp [bizOne], (c10_average_wait_time bizOne).1 (by simp [bizOne])⟩,
   ⟨rfl, (c10_average_wait_time bizEmpty).2 rfl⟩⟩

/-- Witness for C6 at the concrete confirm-step state and session user. -/
theorem c6_reset_booking_witness :
    (resetBooking stConfirm (some userAnn)).currentStep = BookingStep.departments ∧
    (resetBooking stConfirm (some userAnn)).selectedDepartment = none ∧
    (resetBooking stConfirm (some userAnn)).bookingData.departmentId = "" ∧
    (resetBooking stConfirm (some userAnn)).bookingData.customerPhone = "" ∧
    (resetBooking stConfirm (some userAnn)).bookingData.notes = "" ∧
    (resetBooking stConfirm (some userAnn)).bookingData.tokenNumber = none ∧
    (resetBooking stConfirm (some userAnn)).bookingData.estimatedWaitTime = none ∧
    (resetBooking stConfirm (some userAnn)).bookingData.bookingId = none ∧
    (resetBooking stConfirm (some userAnn)).bookingData.qrCode = none ∧
    (resetBooking stConfirm (some userAnn)).bookingData.bookedAt = none ∧
    (resetBooking stConfirm (some userAnn)).bookingData.businessName = none ∧
    (resetBooking stConfirm (some userAnn)).bookingData.departmentName = none ∧
    (resetBooking stConfirm (some userAnn)).bookingData.customerName =
      ((some userAnn).map User.name).getD "" ∧
    (resetBooking stConfirm (some userAnn)).bookingData.customerEmail =
      ((some userAnn).map User.email).getD "" :=
  c6_reset_booking stConfirm (some userAnn)
